import Mathlib

/-!
Shallow embedding of the GPS-Calc core (coordinate parser, coordinate
converter, distance engine, unit formatter) and proofs about it.

JavaScript numbers are modelled as follows: finite doubles are modelled
exactly as rationals (`ℚ`); where a source function explicitly tests for
`NaN` / `±Infinity`, its input is modelled by `JsNum`, which adds those
three non-finite values.  `x.toFixed(n)` followed by `parseFloat` is
modelled as exact rounding to `n` decimal places (`roundTo`).  The
transcendental functions of `Math` (`sin`, `cos`, `atan2`, `sqrt`) and the
constant `Math.PI` have no exact rational counterpart; they are passed to
the distance engine as an explicit parameter (`JsMath`), and each theorem
assumes only the elementary properties of them that it needs.
-/

namespace GPSCalc

/-- A JavaScript number: NaN, +Infinity, -Infinity, or a finite value
(modelled exactly as a rational). -/
inductive JsNum where
  | nan
  | posInf
  | negInf
  | fin (q : ℚ)
deriving DecidableEq, Repr

/-- `!isNaN(x) && isFinite(x)`: true exactly on finite values. -/
def JsNum.isFiniteNum : JsNum → Bool
  | .fin _ => true
  | _ => false

/-- `parseFloat(q.toFixed(n))`: round `q` to `n` decimal places. -/
def roundTo (n : ℕ) (q : ℚ) : ℚ := (round (q * 10 ^ n) : ℚ) / 10 ^ n


/-! ## Coordinate Converter (`coordinate-converter.js`, class `CoordinateConverter`)

`this.dmsPrecision = 5` (decimal places for seconds). -/

namespace CoordinateConverter

/-- Result record of `decimalToDMS`. -/
structure DMS where
  degrees : ℚ
  minutes : ℚ
  seconds : ℚ
  cardinal : String
deriving DecidableEq, Repr

/-- `decimalToDMS(decimalDegrees, includeCardinal)`.  The `isNaN`/`isFinite`
guard returns `null` on non-finite input, so the input is a `JsNum`.
`Math.floor` is `Int.floor`; JavaScript's negative zero (`-degrees` when
`degrees === 0`) is the rational `0`. -/
def decimalToDMS (decimalDegrees : JsNum) (includeCardinal : Bool) : Option DMS :=
  match decimalDegrees with
  | .fin q =>
    let isNegative : Bool := decide (q < 0)
    let absDegrees : ℚ := |q|
    let degrees : ℤ := ⌊absDegrees⌋
    let minutesFloat : ℚ := (absDegrees - degrees) * 60
    let minutes : ℤ := ⌊minutesFloat⌋
    let seconds : ℚ := (minutesFloat - minutes) * 60
    let cardinal : String := if includeCardinal then (if isNegative then "S" else "N") else ""
    some { degrees := if isNegative then -(degrees : ℚ) else (degrees : ℚ)
         , minutes := (minutes : ℚ)
         , seconds := roundTo 5 seconds
         , cardinal := cardinal }
  | _ => none

/-- `cardinal.toUpperCase()`, modelled character-wise (ASCII uppercase of
each character). -/
def toUpperStr (s : String) : String := ⟨s.data.map Char.toUpper⟩

/-- `dmsToDecimal(degrees, minutes, seconds, cardinal)`.  The source first
returns `null` when any numeric argument is `NaN`; with exact rational
arguments that guard can never fire, so the result type is plain `ℚ`. -/
def dmsToDecimal (degrees minutes seconds : ℚ) (cardinal : String) : ℚ :=
  let absDegrees : ℚ := |degrees|
  let decimal : ℚ := absDegrees + minutes / 60 + seconds / 3600
  if degrees < 0 ∨ toUpperStr cardinal = "S" ∨ toUpperStr cardinal = "W" then -decimal
  else decimal

/-- `while (normalizedLon > 180) normalizedLon -= 360;` -/
def wrapDown (q : ℚ) : ℚ :=
  if h : 180 < q then wrapDown (q - 360) else q
termination_by (⌈q⌉).toNat
decreasing_by
  have h1 : (180 : ℤ) < ⌈q⌉ := Int.lt_ceil.mpr (by exact_mod_cast h)
  have h2 : ⌈q - 360⌉ = ⌈q⌉ - 360 := by
    have e : q - 360 = q - ((360 : ℤ) : ℚ) := by norm_num
    rw [e, Int.ceil_sub_int]
  omega

/-- `while (normalizedLon < -180) normalizedLon += 360;` -/
def wrapUp (q : ℚ) : ℚ :=
  if h : q < -180 then wrapUp (q + 360) else q
termination_by (-⌊q⌋).toNat
decreasing_by
  have h1 : ⌊q⌋ < (-180 : ℤ) := Int.floor_lt.mpr (by exact_mod_cast h)
  have h2 : ⌊q + 360⌋ = ⌊q⌋ + 360 := by
    have e : q + 360 = q + ((360 : ℤ) : ℚ) := by norm_num
    rw [e, Int.floor_add_int]
  omega

/-- Normalized coordinate pair returned by `validateAndNormalize`. -/
structure LatLon where
  lat : ℚ
  lon : ℚ
deriving DecidableEq, Repr

/-- `validateAndNormalize(lat, lon)`: non-finite input is rejected, the
longitude is wrapped into `[-180, 180]` by the two `while` loops, and an
out-of-range latitude is rejected. -/
def validateAndNormalize (lat lon : JsNum) : Option LatLon :=
  match lat, lon with
  | .fin la, .fin lo =>
    let normalizedLon : ℚ := wrapUp (wrapDown lo)
    if la < -90 ∨ 90 < la then none
    else some { lat := la, lon := normalizedLon }
  | _, _ => none


end CoordinateConverter


/-! ## Coordinate Parser (`coordinate-parser.js`, class `CoordinateParser`)

Only the space-separated-DMS (OPUS style) pattern
`^(-?\d+)\s+(\d+)\s+(\d+(?:\.\d+)?)\s+(-?\d+)\s+(\d+)\s+(\d+(?:\.\d+)?)$`
is embedded in full.  The four remaining patterns are only tried when this
anchored pattern does not match, so `parseCoordinate` takes them as an
abstract continuation `rest`; every theorem below concerns inputs matched
by the first pattern, where the result does not depend on `rest`. -/

namespace CoordinateParser

/-- Split a character list into maximal runs of non-whitespace characters
(the token decomposition induced by the `\s+` separators of the anchored
regex; leading/trailing whitespace yields no empty tokens, matching the
trimmed input). -/
def tokenizeAux : List Char → List Char → List (List Char)
  | [], cur => if cur.isEmpty then [] else [cur.reverse]
  | c :: rest, cur =>
    if c.isWhitespace then
      if cur.isEmpty then tokenizeAux rest []
      else cur.reverse :: tokenizeAux rest []
    else tokenizeAux rest (c :: cur)

def tokenize (s : String) : List (List Char) := tokenizeAux s.data []

/-- Digit-run value, most significant first (`parseFloat` on an integer
part). -/
def digitsVal (l : List Char) : ℕ := l.foldl (fun n c => 10 * n + (c.toNat - 48)) 0

/-- Shape of `\d+`. -/
def natTokOk (l : List Char) : Bool := !l.isEmpty && l.all Char.isDigit

/-- Shape of `-?\d+`. -/
def intTokOk (l : List Char) : Bool :=
  if l.headD ' ' = '-' then !l.tail.isEmpty && l.tail.all Char.isDigit
  else natTokOk l

/-- Shape of `\d+(?:\.\d+)?`. -/
def decTokOk (l : List Char) : Bool :=
  match l.splitOn '.' with
  | [a] => natTokOk a
  | [a, b] => natTokOk a && natTokOk b
  | _ => false

/-- `parseFloat` of a `-?\d+` token. -/
def intTokVal (l : List Char) : ℚ :=
  if l.headD ' ' = '-' then -(digitsVal l.tail : ℚ) else (digitsVal l : ℚ)

/-- `parseFloat` of a `\d+(?:\.\d+)?` token. -/
def decTokVal (l : List Char) : ℚ :=
  match l.splitOn '.' with
  | [a] => (digitsVal a : ℚ)
  | [a, b] => (digitsVal a : ℚ) + (digitsVal b : ℚ) / 10 ^ b.length
  | _ => 0

/-- `this.patterns.dmsSpaceSeparated.exec(input)`: the anchored match of
`^(-?\d+)\s+(\d+)\s+(\d+(?:\.\d+)?)\s+(-?\d+)\s+(\d+)\s+(\d+(?:\.\d+)?)$`,
returning the six captured numbers already converted by `parseFloat`. -/
def dmsSpaceSeparatedExec (s : String) : Option (ℚ × ℚ × ℚ × ℚ × ℚ × ℚ) :=
  match tokenize s with
  | [a, b, c, d, e, f] =>
    if intTokOk a && natTokOk b && decTokOk c && intTokOk d && natTokOk e && decTokOk f then
      some (intTokVal a, (digitsVal b : ℚ), decTokVal c, intTokVal d, (digitsVal e : ℚ), decTokVal f)
    else none
  | _ => none

/-- Parsed coordinate pair (`{lat, lon}`). -/
structure Coord where
  lat : ℚ
  lon : ℚ
deriving DecidableEq, Repr

/-- `dmsToDecimal(degrees, minutes, seconds)` of the parser: the sign comes
only from the degrees component. -/
def dmsToDecimal (degrees minutes seconds : ℚ) : ℚ :=
  let sign : ℚ := if degrees < 0 then -1 else 1
  sign * (|degrees| + minutes / 60 + seconds / 3600)

/-- `parseDMSSpaceSeparated(match)`: the six captures are converted without
consulting any hemisphere default — no sign is applied beyond the one
carried by the degrees tokens. -/
def parseDMSSpaceSeparated (m : ℚ × ℚ × ℚ × ℚ × ℚ × ℚ) : Coord :=
  { lat := dmsToDecimal m.1 m.2.1 m.2.2.1
  , lon := dmsToDecimal m.2.2.2.1 m.2.2.2.2.1 m.2.2.2.2.2 }

/-- `parseCoordinate(input)`.  The space-separated DMS pattern is tried
first; `rest` abstracts the remaining four pattern branches, which receive
the trimmed input exactly as in the source.  (The anchored matcher is
insensitive to surrounding whitespace, so it is applied to the raw string;
`tokenize input = tokenize input.trim`.) -/
def parseCoordinate (rest : String → Option Coord) (input : String) : Option Coord :=
  if input = "" then none
  else
    match dmsSpaceSeparatedExec input with
    | some m => some (parseDMSSpaceSeparated m)
    | none => rest input.trim

end CoordinateParser

/-! ## Distance Engine (`distance-calculator.js`, class `DistanceCalculator`) -/

/-- The `Math` functions used by the distance engine.  Their values on
doubles are not exactly representable; every theorem states explicitly the
elementary properties it assumes of them. -/
structure JsMath where
  sin : ℚ → ℚ
  cos : ℚ → ℚ
  atan2 : ℚ → ℚ → ℚ
  sqrt : ℚ → ℚ
  pi : ℚ

namespace DistanceCalculator

/-- `this.earthRadiusKm = 6371`. -/
def earthRadiusKm : ℚ := 6371

/-- `this.earthRadiusMiles = 3959`. -/
def earthRadiusMiles : ℚ := 3959

/-- `toRadians(degrees)`. -/
def toRadians (M : JsMath) (degrees : ℚ) : ℚ := degrees * (M.pi / 180)

/-- `validateCoordinates(lat, lon)`.  The `!isNaN`/`isFinite` conjuncts are
identically true on exact rationals (non-finite coordinate values never
reach the distance engine in the claims below). -/
def validateCoordinates (lat lon : ℚ) : Bool :=
  decide (-90 ≤ lat) && decide (lat ≤ 90) && decide (-180 ≤ lon) && decide (lon ≤ 180)

/-- `{km, miles}` result. -/
structure DistanceValue where
  km : ℚ
  miles : ℚ
deriving DecidableEq, Repr

/-- `calculate2DDistance(lat1, lon1, lat2, lon2)` — Haversine formula with
both results rounded to 6 decimal places. -/
def calculate2DDistance (M : JsMath) (lat1 lon1 lat2 lon2 : ℚ) : Option DistanceValue :=
  if !validateCoordinates lat1 lon1 || !validateCoordinates lat2 lon2 then none
  else
    let lat1Rad := toRadians M lat1
    let lon1Rad := toRadians M lon1
    let lat2Rad := toRadians M lat2
    let lon2Rad := toRadians M lon2
    let deltaLat := lat2Rad - lat1Rad
    let deltaLon := lon2Rad - lon1Rad
    let a := M.sin (deltaLat / 2) * M.sin (deltaLat / 2) +
             M.cos lat1Rad * M.cos lat2Rad *
             M.sin (deltaLon / 2) * M.sin (deltaLon / 2)
    let c := 2 * M.atan2 (M.sqrt a) (M.sqrt (1 - a))
    let distanceKm := earthRadiusKm * c
    let distanceMiles := earthRadiusMiles * c
    some { km := roundTo 6 distanceKm, miles := roundTo 6 distanceMiles }

/-- `calculate3DDistance(lat1, lon1, elev1, lat2, lon2, elev2)`: falls back
to the 2D result when either elevation is `NaN` or infinite, otherwise
applies the Pythagorean theorem in meters to the absolute elevation
difference. -/
def calculate3DDistance (M : JsMath) (lat1 lon1 : ℚ) (elev1 : JsNum)
    (lat2 lon2 : ℚ) (elev2 : JsNum) : Option DistanceValue :=
  match calculate2DDistance M lat1 lon1 lat2 lon2 with
  | none => none
  | some distance2D =>
    match elev1, elev2 with
    | .fin q1, .fin q2 =>
      let elevationDiff := |q1 - q2|
      let distance2DMeters := distance2D.km * 1000
      let distance3DMeters := M.sqrt (distance2DMeters ^ 2 + elevationDiff ^ 2)
      let distance3DKm := distance3DMeters / 1000
      let distance3DMiles := distance3DKm * 0.621371
      some { km := roundTo 6 distance3DKm, miles := roundTo 6 distance3DMiles }
    | _, _ => some distance2D -- either elevation invalid: return the 2D distance

-- (continued)

/-- Input coordinate record `{lat, lon, elevation?}`.  The latitude and
longitude of the claims are finite; the optional elevation may be any
JavaScript number. -/
structure Coordinate where
  lat : ℚ
  lon : ℚ
  elevation : Option JsNum
deriving DecidableEq, Repr, Inhabited

/-- JavaScript `coord.elevation || 0`: a missing elevation, `NaN`, and `0`
are falsy and are replaced by `0`; `±Infinity` and every other number pass
through. -/
def elevOrZero : Option JsNum → JsNum
  | none => .fin 0
  | some .nan => .fin 0
  | some e => e

/-- One cell of the 2D matrix: `{km: 0, miles: 0}` on the diagonal, the
pairwise distance elsewhere (`null` cell when the pair is invalid). -/
def matrixCell2D (M : JsMath) (coordinates : List Coordinate) (i j : ℕ) :
    Option DistanceValue :=
  if i = j then some { km := 0, miles := 0 }
  else
    let coord1 := coordinates.getD i default
    let coord2 := coordinates.getD j default
    calculate2DDistance M coord1.lat coord1.lon coord2.lat coord2.lon

/-- One cell of the 3D matrix. -/
def matrixCell3D (M : JsMath) (coordinates : List Coordinate) (i j : ℕ) :
    Option DistanceValue :=
  if i = j then some { km := 0, miles := 0 }
  else
    let coord1 := coordinates.getD i default
    let coord2 := coordinates.getD j default
    calculate3DDistance M coord1.lat coord1.lon (elevOrZero coord1.elevation)
      coord2.lat coord2.lon (elevOrZero coord2.elevation)

/-- The flat `distances2D` array pushed inside the double loop: every
ordered pair `(i, j)` with `i ≠ j`, in loop order, keeping the `km` value
of each non-`null` distance. -/
def distancesList (cell : ℕ → ℕ → Option DistanceValue) (n : ℕ) : List ℚ :=
  (List.range n).flatMap fun i =>
    (List.range n).filterMap fun j =>
      if i = j then none else (cell i j).map (·.km)

/-- `{min, max, average, count}`. -/
structure Stats where
  min : ℚ
  max : ℚ
  average : ℚ
  count : ℕ
deriving DecidableEq, Repr

/-- `calculateStatistics(distances)`: `null` on an empty list, otherwise
min / max via a sort, arithmetic mean, and the observation count. -/
def calculateStatistics (distances : List ℚ) : Option Stats :=
  match distances with
  | [] => none
  | _ =>
    let sorted := distances.mergeSort (fun a b => decide (a ≤ b))
    let sum := distances.foldl (· + ·) 0
    let average := sum / (distances.length : ℚ)
    some { min := roundTo 6 (sorted.headD 0)
         , max := roundTo 6 (sorted.getLastD 0)
         , average := roundTo 6 average
         , count := distances.length }

/-- One entry of `segmentDistances`. -/
structure Segment where
  fromIdx : ℕ -- `from: i + 1`
  toIdx : ℕ -- `to: i + 2`
  distance : DistanceValue
deriving DecidableEq, Repr

/-- Result of `calculateCumulativeDistance`. -/
structure Cumulative where
  totalKm : ℚ
  totalMiles : ℚ
  segments : List Segment
deriving DecidableEq, Repr

/-- `calculateCumulativeDistance(coordinates, include3D)`: `null` below two
coordinates, otherwise the consecutive pairs `i → i+1` in input order; a
`null` pair distance contributes nothing. -/
def calculateCumulativeDistance (M : JsMath) (coordinates : List Coordinate)
    (include3D : Bool) : Option Cumulative :=
  if coordinates.length < 2 then none
  else
    let step := fun (i : ℕ) =>
      let coord1 := coordinates.getD i default
      let coord2 := coordinates.getD (i + 1) default
      if include3D then
        calculate3DDistance M coord1.lat coord1.lon (elevOrZero coord1.elevation)
          coord2.lat coord2.lon (elevOrZero coord2.elevation)
      else
        calculate2DDistance M coord1.lat coord1.lon coord2.lat coord2.lon
    let collected := (List.range (coordinates.length - 1)).filterMap fun i =>
      (step i).map fun d => (i, d)
    some { totalKm := roundTo 6 ((collected.map (fun p => p.2.km)).foldl (· + ·) 0)
         , totalMiles := roundTo 6 ((collected.map (fun p => p.2.miles)).foldl (· + ·) 0)
         , segments := collected.map fun p =>
             { fromIdx := p.1 + 1, toIdx := p.1 + 2, distance := p.2 } }

/-- Result record of `calculateDistanceMatrix`. -/
structure MatrixResult where
  matrix2D : Option (List (List (Option DistanceValue)))
  matrix3D : Option (List (List (Option DistanceValue)))
  statistics2D : Option Stats
  statistics3D : Option Stats
  cumulative2D : Option Cumulative
  cumulative3D : Option Cumulative
  coordinates : List (Coordinate × String)
deriving Repr

/-- `calculateDistanceMatrix(coordinates, include2D, include3D)`. -/
def calculateDistanceMatrix (M : JsMath) (coordinates : List Coordinate)
    (include2D include3D : Bool) : Option MatrixResult :=
  if coordinates.length < 2 then none
  else
    let n := coordinates.length
    some
      { matrix2D :=
          if include2D then
            some ((List.range n).map fun i =>
              (List.range n).map fun j => matrixCell2D M coordinates i j)
          else none
      , matrix3D :=
          if include3D then
            some ((List.range n).map fun i =>
              (List.range n).map fun j => matrixCell3D M coordinates i j)
          else none
      , statistics2D :=
          if include2D then calculateStatistics (distancesList (matrixCell2D M coordinates) n)
          else none
      , statistics3D :=
          if include3D then calculateStatistics (distancesList (matrixCell3D M coordinates) n)
          else none
      , cumulative2D :=
          if include2D then calculateCumulativeDistance M coordinates false else none
      , cumulative3D :=
          if include3D then calculateCumulativeDistance M coordinates true else none
      , coordinates :=
          coordinates.enum.map fun p => (p.2, "Point " ++ toString (p.1 + 1)) }

end DistanceCalculator

/-! ## Unit Formatter (`script.js`, dynamic unit scaling) -/

namespace UnitFormatter

/-- `{value, unit}` display projection. -/
structure FormattedDistance where
  value : ℚ
  unit : String
deriving DecidableEq, Repr

/-- `getDefaultUnit(unitSystem)`. -/
def getDefaultUnit (unitSystem : String) : String :=
  if unitSystem = "feet" ∨ unitSystem = "survey-feet" then "ft" else "m"

/-- `formatInMeters(kmValue)`. -/
def formatInMeters (kmValue : ℚ) : FormattedDistance :=
  let meters := kmValue * 1000
  let centimeters := meters * 100
  let millimeters := centimeters * 10
  if 1/10 ≤ millimeters ∧ millimeters < 10 then
    { value := roundTo 3 millimeters, unit := "mm" }
  else if 10 ≤ millimeters ∧ millimeters < 1000 then
    { value := roundTo 4 (millimeters / 10), unit := "cm" }
  else if 100 ≤ centimeters ∧ centimeters < 10000 then
    { value := roundTo 3 (centimeters / 100), unit := "m" }
  else if 1/1000 ≤ meters ∧ meters < 1000 then
    if meters < 1 then { value := roundTo 6 meters, unit := "m" }
    else { value := roundTo 3 meters, unit := "m" }
  else
    { value := roundTo 6 kmValue, unit := "km" }

/-- `formatInFeet(kmValue)`. -/
def formatInFeet (kmValue : ℚ) : FormattedDistance :=
  let meters := kmValue * 1000
  let feet := meters / (3048 / 10000)
  let inches := feet * 12
  let miles := feet / 5280
  if 1/10 ≤ inches ∧ inches < 12 then { value := roundTo 3 inches, unit := "in" }
  else if 1 ≤ feet ∧ feet < 5280 then { value := roundTo 3 feet, unit := "ft" }
  else { value := roundTo 6 miles, unit := "mi" }

/-- `formatInSurveyFeet(kmValue)`. -/
def formatInSurveyFeet (kmValue : ℚ) : FormattedDistance :=
  let meters := kmValue * 1000
  let surveyFeet := meters / (30480061 / 100000000)
  let inches := surveyFeet * 12
  let miles := surveyFeet / 5280
  if 1/10 ≤ inches ∧ inches < 12 then { value := roundTo 3 inches, unit := "in" }
  else if 1 ≤ surveyFeet ∧ surveyFeet < 5280 then { value := roundTo 3 surveyFeet, unit := "ft" }
  else { value := roundTo 6 miles, unit := "mi" }

/-- `formatDistanceWithDynamicUnits(kmValue, unitSystem)`: `NaN`, infinite
or negative input short-circuits to `{value: 0, unit: default}`; otherwise
dispatch on the unit system (`meters` is also the `default:` case). -/
def formatDistanceWithDynamicUnits (kmValue : JsNum) (unitSystem : String) :
    FormattedDistance :=
  match kmValue with
  | .fin q =>
    if q < 0 then { value := 0, unit := getDefaultUnit unitSystem }
    else if unitSystem = "feet" then formatInFeet q
    else if unitSystem = "survey-feet" then formatInSurveyFeet q
    else formatInMeters q
  | _ => { value := 0, unit := getDefaultUnit unitSystem }

end UnitFormatter

/-! ## A concrete, computable instantiation of the abstract `Math`
functions, used by the closed witness/counterexample theorems.  It
satisfies the properties the theorems assume: its `sin` is odd, its
`sqrt` is monotone, and `x ≤ sqrt (x²)` for every `x`. -/

def MW : JsMath :=
  { sin := fun _ => 0
  , cos := fun _ => 0
  , atan2 := fun _ _ => 0
  , sqrt := fun q => q + 1
  , pi := 0 }

theorem abs_roundTo_sub (n : ℕ) (q : ℚ) :
    |roundTo n q - q| ≤ 1 / (2 * 10 ^ n) := by
  have h10 : (0:ℚ) < 10 ^ n := by positivity
  have h := abs_sub_round (q * 10 ^ n)
  rw [abs_sub_comm] at h
  have : roundTo n q - q = ((round (q * 10 ^ n) : ℚ) - q * 10 ^ n) / 10 ^ n := by
    field_simp [roundTo]
    ring
  rw [this, abs_div, abs_of_pos h10, div_le_div_iff h10 (by positivity)]
  calc |(round (q * 10 ^ n) : ℚ) - q * 10 ^ n| * (2 * 10 ^ n)
      ≤ (1 / 2) * (2 * 10 ^ n) := by
        apply mul_le_mul_of_nonneg_right h (by positivity)
    _ = 1 * 10 ^ n := by ring

theorem roundTo_mono (n : ℕ) {q r : ℚ} (h : q ≤ r) :
    roundTo n q ≤ roundTo n r := by
  have h10 : (0:ℚ) < 10 ^ n := by positivity
  have hr : round (q * 10 ^ n) ≤ round (r * 10 ^ n) := by
    rw [round_eq, round_eq]
    exact Int.floor_le_floor (by nlinarith)
  exact (div_le_div_right h10).mpr (by exact_mod_cast hr)

theorem roundTo_roundTo (n : ℕ) (q : ℚ) :
    roundTo n (roundTo n q) = roundTo n q := by
  have h10 : (10:ℚ) ^ n ≠ 0 := by positivity
  unfold roundTo
  rw [div_mul_cancel₀ _ h10, round_intCast]

namespace CoordinateConverter

theorem wrapDown_le (q : ℚ) : wrapDown q ≤ 180 := by
  induction q using wrapDown.induct with
  | case1 q h ih => rw [wrapDown, dif_pos h]; exact ih
  | case2 q h => rw [wrapDown, dif_neg h]; linarith

theorem wrapDown_shift (q : ℚ) : ∃ k : ℤ, wrapDown q = q + 360 * k := by
  induction q using wrapDown.induct with
  | case1 q h ih =>
    obtain ⟨k, hk⟩ := ih
    exact ⟨k - 1, by rw [wrapDown, dif_pos h, hk]; push_cast; ring⟩
  | case2 q h => exact ⟨0, by rw [wrapDown, dif_neg h]; ring⟩

theorem wrapUp_ge (q : ℚ) : -180 ≤ wrapUp q := by
  induction q using wrapUp.induct with
  | case1 q h ih => rw [wrapUp, dif_pos h]; exact ih
  | case2 q h => rw [wrapUp, dif_neg h]; linarith

theorem wrapUp_le (q : ℚ) (hq : q ≤ 180) : wrapUp q ≤ 180 := by
  induction q using wrapUp.induct with
  | case1 q h ih => rw [wrapUp, dif_pos h]; exact ih (by linarith)
  | case2 q h => rw [wrapUp, dif_neg h]; exact hq

theorem wrapUp_shift (q : ℚ) : ∃ k : ℤ, wrapUp q = q + 360 * k := by
  induction q using wrapUp.induct with
  | case1 q h ih =>
    obtain ⟨k, hk⟩ := ih
    exact ⟨k + 1, by rw [wrapUp, dif_pos h, hk]; push_cast; ring⟩
  | case2 q h => exact ⟨0, by rw [wrapUp, dif_neg h]; ring⟩

theorem wrapDown_200 : wrapDown 200 = -160 := by
  rw [wrapDown, dif_pos (by norm_num)]
  norm_num
  rw [wrapDown, dif_neg (by norm_num)]

theorem wrapUp_neg160 : wrapUp (-160) = -160 := by
  rw [wrapUp, dif_neg (by norm_num)]

end CoordinateConverter

namespace CoordinateConverter

/-- The exact algebraic round trip: for any `a`, `D`, `m`, the value
`D + m/60 + s/3600` with `s = ((a - D)*60 - m)*60` equals `a` exactly, so
rounding the seconds to 5 decimal places moves the result by at most
`(1/2)·10⁻⁵/3600`. -/
theorem dms_roundtrip_core (a D m : ℚ) :
    |(D + m / 60 + roundTo 5 (((a - D) * 60 - m) * 60) / 3600) - a| ≤ 1 / 100000 := by
  set s : ℚ := ((a - D) * 60 - m) * 60 with hs
  have hrw : (D + m / 60 + roundTo 5 s / 3600) - a = (roundTo 5 s - s) / 3600 := by
    rw [hs]; ring
  have h5 : |roundTo 5 s - s| ≤ 1 / 200000 := by
    have h := abs_roundTo_sub 5 s
    norm_num at h
    exact h
  rw [hrw, abs_div, abs_of_pos (by norm_num : (0:ℚ) < 3600)]
  calc |roundTo 5 s - s| / 3600 ≤ (1 / 200000) / 3600 := by gcongr
    _ ≤ 1 / 100000 := by norm_num

end CoordinateConverter

namespace CoordinateConverter

theorem decimalToDMS_fin_neg (q : ℚ) (hq : q < 0) :
    decimalToDMS (JsNum.fin q) true =
      some { degrees := -((⌊-q⌋ : ℤ) : ℚ)
           , minutes := ((⌊((-q) - ((⌊-q⌋ : ℤ) : ℚ)) * 60⌋ : ℤ) : ℚ)
           , seconds := roundTo 5
               ((((-q) - ((⌊-q⌋ : ℤ) : ℚ)) * 60 -
                 ((⌊((-q) - ((⌊-q⌋ : ℤ) : ℚ)) * 60⌋ : ℤ) : ℚ)) * 60)
           , cardinal := "S" } := by
  simp [decimalToDMS, hq, abs_of_neg hq]

theorem decimalToDMS_fin_nonneg (q : ℚ) (hq : 0 ≤ q) :
    decimalToDMS (JsNum.fin q) true =
      some { degrees := ((⌊q⌋ : ℤ) : ℚ)
           , minutes := ((⌊(q - ((⌊q⌋ : ℤ) : ℚ)) * 60⌋ : ℤ) : ℚ)
           , seconds := roundTo 5
               (((q - ((⌊q⌋ : ℤ) : ℚ)) * 60 -
                 ((⌊(q - ((⌊q⌋ : ℤ) : ℚ)) * 60⌋ : ℤ) : ℚ)) * 60)
           , cardinal := "N" } := by
  simp [decimalToDMS, not_lt.mpr hq, abs_of_nonneg hq]

end CoordinateConverter

theorem MW_sin_odd : ∀ x : ℚ, MW.sin (-x) = -MW.sin x := by
  intro x
  show (0:ℚ) = -0
  rw [neg_zero]

theorem MW_sqrt_mono : ∀ x y : ℚ, x ≤ y → MW.sqrt x ≤ MW.sqrt y := by
  intro x y h
  show x + 1 ≤ y + 1
  linarith

theorem MW_le_sqrt_sq : ∀ x : ℚ, x ≤ MW.sqrt (x ^ 2) := by
  intro x
  show x ≤ x ^ 2 + 1
  nlinarith [sq_nonneg (x - 1)]

namespace CoordinateParser

theorem dmsSpaceSeparatedExec_opus :
    dmsSpaceSeparatedExec "41 48 15.79259 112 50 1.04150" =
      some (41, 48, 1579259/100000, 112, 50, 2083/2000) := by
  have ht : tokenize "41 48 15.79259 112 50 1.04150" =
      [['4','1'], ['4','8'], ['1','5','.','7','9','2','5','9'],
       ['1','1','2'], ['5','0'], ['1','.','0','4','1','5','0']] := by decide
  have hok : (intTokOk ['4','1'] && natTokOk ['4','8'] &&
      decTokOk ['1','5','.','7','9','2','5','9'] && intTokOk ['1','1','2'] &&
      natTokOk ['5','0'] && decTokOk ['1','.','0','4','1','5','0']) = true := by decide
  have hs1 : ['1','5','.','7','9','2','5','9'].splitOn '.' =
      [['1','5'], ['7','9','2','5','9']] := by decide
  have hs2 : ['1','.','0','4','1','5','0'].splitOn '.' =
      [['1'], ['0','4','1','5','0']] := by decide
  have hd1 : digitsVal ['4','1'] = 41 := by decide
  have hd2 : digitsVal ['4','8'] = 48 := by decide
  have hd3 : digitsVal ['1','5'] = 15 := by decide
  have hd4 : digitsVal ['7','9','2','5','9'] = 79259 := by decide
  have hd5 : digitsVal ['1','1','2'] = 112 := by decide
  have hd6 : digitsVal ['5','0'] = 50 := by decide
  have hd7 : digitsVal ['1'] = 1 := by decide
  have hd8 : digitsVal ['0','4','1','5','0'] = 4150 := by decide
  have hne1 : ¬ ((['4','1'].headD ' ') = '-') := by decide
  have hne2 : ¬ ((['1','1','2'].headD ' ') = '-') := by decide
  rw [dmsSpaceSeparatedExec, ht]
  simp only [hok, if_true]
  rw [intTokVal, intTokVal, if_neg hne1, if_neg hne2, decTokVal, decTokVal, hs1, hs2]
  simp only [hd1, hd2, hd3, hd4, hd5, hd6, hd7, hd8, List.length_cons, List.length_nil]
  norm_num

end CoordinateParser

/-- C1: for the OPUS-style space-separated DMS input
`"41 48 15.79259 112 50 1.04150"` (no explicit sign, no cardinal letters),
`parseCoordinate` returns latitude `41°48'15.79259" ≈ 41.804` and longitude
`112°50'1.04150" ≈ +112.834` — the longitude comes back POSITIVE, because
`parseDMSSpaceSeparated` applies no West default. This contradicts the
repository's own change log ("Updated logic to default Longitude to West
… for space-separated DMS coordinates") and in-app help ("Defaults to
North/West"), and the spec's example expecting `≈ -112.834`. -/
theorem C1_parseCoordinate_space_separated_lon_positive :
    (∀ rest, CoordinateParser.parseCoordinate rest "41 48 15.79259 112 50 1.04150" =
      some { lat := 41 + 48/60 + (1579259/100000)/3600
           , lon := 112 + 50/60 + (104150/100000)/3600 }) ∧
    (0 : ℚ) < 41 + 48/60 + (1579259/100000)/3600 ∧
    (0 : ℚ) < 112 + 50/60 + (104150/100000)/3600 := by
  refine ⟨?_, by norm_num, by norm_num⟩
  intro rest
  rw [CoordinateParser.parseCoordinate, if_neg (by decide),
    CoordinateParser.dmsSpaceSeparatedExec_opus]
  simp only [CoordinateParser.parseDMSSpaceSeparated, CoordinateParser.dmsToDecimal]
  norm_num

/-- C2: for every valid latitude/longitude value (any `q ∈ [-180, 180]`
covers both ranges), converting with `decimalToDMS` (seconds rounded to 5
decimal places, cardinal included) and converting the resulting
degrees/minutes/seconds/cardinal back with `dmsToDecimal` lands within
`1e-5` degrees of the original (the exact bound is `(1/2)·10⁻⁵/3600`);
in particular for `-1 < q < 0` the degrees component is (negative) zero
and the sign survives through the `"S"` cardinal. -/
theorem C2_decimalToDMS_dmsToDecimal_roundtrip (q : ℚ)
    (h1 : -180 ≤ q) (h2 : q ≤ 180) :
    ∃ d, CoordinateConverter.decimalToDMS (JsNum.fin q) true = some d ∧
      |CoordinateConverter.dmsToDecimal d.degrees d.minutes d.seconds d.cardinal - q|
        ≤ 1 / 100000 ∧
      (-1 < q → q < 0 → d.degrees = 0) := by
  clear h1 h2
  rcases lt_or_le q 0 with hq | hq
  · refine ⟨_, CoordinateConverter.decimalToDMS_fin_neg q hq, ?_, ?_⟩
    · have hD : (0:ℚ) ≤ ((⌊-q⌋ : ℤ) : ℚ) := by
        have : (0:ℤ) ≤ ⌊-q⌋ := Int.floor_nonneg.mpr (by linarith)
        exact_mod_cast this
      simp only [CoordinateConverter.dmsToDecimal]
      rw [if_pos (Or.inr (Or.inl (by decide)))]
      rw [abs_neg, abs_of_nonneg hD]
      have hflip : ∀ X : ℚ, -X - q = -(X - (-q)) := by intro X; ring
      rw [hflip, abs_neg]
      exact CoordinateConverter.dms_roundtrip_core (-q) _ _
    · intro hm1 hm0
      have hfz : ⌊-q⌋ = 0 := by
        rw [Int.floor_eq_zero_iff, Set.mem_Ico]
        exact ⟨by linarith, by linarith⟩
      show -((⌊-q⌋ : ℤ) : ℚ) = 0
      rw [hfz]
      norm_num
  · refine ⟨_, CoordinateConverter.decimalToDMS_fin_nonneg q hq, ?_, ?_⟩
    · have hD : (0:ℚ) ≤ ((⌊q⌋ : ℤ) : ℚ) := by
        have : (0:ℤ) ≤ ⌊q⌋ := Int.floor_nonneg.mpr hq
        exact_mod_cast this
      simp only [CoordinateConverter.dmsToDecimal]
      rw [if_neg (by
        push_neg
        refine ⟨by linarith, by decide, by decide⟩)]
      rw [abs_of_nonneg hD]
      exact CoordinateConverter.dms_roundtrip_core q _ _
    · intro hm1 hm0
      linarith

/-- Witness for C2 at `q = -1/2` (the negative-zero degrees case). -/
theorem C2_roundtrip_witness :
    (-180 ≤ (-1/2 : ℚ) ∧ (-1/2 : ℚ) ≤ 180) ∧
    ∃ d, CoordinateConverter.decimalToDMS (JsNum.fin (-1/2)) true = some d ∧
      |CoordinateConverter.dmsToDecimal d.degrees d.minutes d.seconds d.cardinal - (-1/2)|
        ≤ 1 / 100000 ∧
      (-1 < (-1/2 : ℚ) → (-1/2 : ℚ) < 0 → d.degrees = 0) :=
  ⟨⟨by norm_num, by norm_num⟩,
    C2_decimalToDMS_dmsToDecimal_roundtrip (-1/2) (by norm_num) (by norm_num)⟩

open CoordinateConverter in
/-- C5: `validateAndNormalize` returns `null` exactly when the latitude or
longitude is non-finite or the latitude lies outside `[-90, 90]`; otherwise
it returns the latitude unchanged and the longitude wrapped into
`[-180, 180]` by repeated addition/subtraction of 360.  In particular
`validateAndNormalize(91, x)` is `null` for every `x`, and longitude `200`
wraps to `-160` for every valid latitude. -/
theorem C5_validateAndNormalize_spec :
    (∀ lat lon : JsNum, validateAndNormalize lat lon = none ↔
      ((∀ a : ℚ, lat ≠ JsNum.fin a) ∨ (∀ a : ℚ, lon ≠ JsNum.fin a) ∨
       (∃ a : ℚ, lat = JsNum.fin a ∧ (a < -90 ∨ 90 < a)))) ∧
    (∀ la lo : ℚ, -90 ≤ la → la ≤ 90 →
      ∃ w, validateAndNormalize (JsNum.fin la) (JsNum.fin lo) = some ⟨la, w⟩ ∧
        -180 ≤ w ∧ w ≤ 180 ∧ ∃ k : ℤ, w = lo + 360 * k) ∧
    (∀ x, validateAndNormalize (JsNum.fin 91) x = none) ∧
    (∀ la : ℚ, -90 ≤ la → la ≤ 90 →
      validateAndNormalize (JsNum.fin la) (JsNum.fin 200) = some ⟨la, -160⟩) := by
  have hval : ∀ la lo : ℚ, validateAndNormalize (JsNum.fin la) (JsNum.fin lo) =
      if la < -90 ∨ 90 < la then none
      else some ⟨la, wrapUp (wrapDown lo)⟩ := fun la lo => rfl
  refine ⟨?_, ?_, ?_, ?_⟩
  · intro lat lon
    cases lat with
    | fin la =>
      cases lon with
      | fin lo =>
        rw [hval]
        constructor
        · intro h
          refine Or.inr (Or.inr ⟨la, rfl, ?_⟩)
          by_contra hc
          push_neg at hc
          rw [if_neg] at h
          · exact Option.some_ne_none _ h
          · push_neg
            exact hc
        · rintro (h | h | ⟨a, ha, hrange⟩)
          · exact absurd rfl (h la)
          · exact absurd rfl (h lo)
          · cases ha
            exact if_pos hrange
      | nan => simp [validateAndNormalize]
      | posInf => simp [validateAndNormalize]
      | negInf => simp [validateAndNormalize]
    | nan => simp [validateAndNormalize]
    | posInf => simp [validateAndNormalize]
    | negInf => simp [validateAndNormalize]
  · intro la lo hla1 hla2
    refine ⟨wrapUp (wrapDown lo), ?_, wrapUp_ge _, wrapUp_le _ (wrapDown_le lo), ?_⟩
    · rw [hval, if_neg (by push_neg; exact ⟨by linarith, by linarith⟩)]
    · obtain ⟨k1, hk1⟩ := wrapDown_shift lo
      obtain ⟨k2, hk2⟩ := wrapUp_shift (wrapDown lo)
      exact ⟨k1 + k2, by rw [hk2, hk1]; push_cast; ring⟩
  · intro x
    cases x with
    | fin lo => rw [hval, if_pos (by norm_num)]
    | nan => rfl
    | posInf => rfl
    | negInf => rfl
  · intro la hla1 hla2
    rw [hval, if_neg (by push_neg; exact ⟨by linarith, by linarith⟩),
      wrapDown_200, wrapUp_neg160]

/-- Witness for C5 at latitude `5`, longitude `200`. -/
theorem C5_validateAndNormalize_witness :
    (-90 ≤ (5:ℚ) ∧ (5:ℚ) ≤ 90) ∧
    CoordinateConverter.validateAndNormalize (JsNum.fin 5) (JsNum.fin 200) =
      some ⟨5, -160⟩ :=
  ⟨⟨by norm_num, by norm_num⟩,
    C5_validateAndNormalize_spec.2.2.2 5 (by norm_num) (by norm_num)⟩

theorem roundTo_intCast (n : ℕ) (k : ℤ) : roundTo n ((k : ℚ)) = (k : ℚ) := by
  unfold roundTo
  have h : ((k:ℚ) * 10 ^ n) = ((k * 10 ^ n : ℤ) : ℚ) := by push_cast; ring
  rw [h, round_intCast]
  push_cast
  have h10 : (10:ℚ) ^ n ≠ 0 := by positivity
  field_simp

theorem roundTo_one (n : ℕ) : roundTo n 1 = 1 := by
  have := roundTo_intCast n 1
  norm_num at this
  exact this

namespace UnitFormatter

/-- For a finite non-negative km value the metric formatter never produces
the `{value: 0, unit: "m"}` sentinel: every branch whose unit is `"m"`
yields a value of at least `1/1000`. -/
theorem formatInMeters_ne_zero_m (q : ℚ) :
    formatInMeters q ≠ { value := 0, unit := "m" } := by
  unfold formatInMeters
  dsimp only
  split_ifs with h1 h2 h3 h4 h5
  · simp
  · simp
  · intro h
    simp only [FormattedDistance.mk.injEq] at h
    have hge : (1:ℚ) ≤ roundTo 3 (q * 1000 * 100 / 100) := by
      have := roundTo_mono 3 (show (1:ℚ) ≤ q * 1000 * 100 / 100 by linarith [h3.1])
      rwa [roundTo_one] at this
    linarith [h.1, hge]
  · intro h
    simp only [FormattedDistance.mk.injEq] at h
    have hge : (1/1000:ℚ) ≤ roundTo 6 (q * 1000) := by
      have h0 : roundTo 6 (1/1000 : ℚ) = 1/1000 := by
        unfold roundTo
        norm_num
      have := roundTo_mono 6 (show (1/1000:ℚ) ≤ q * 1000 from h4.1)
      rwa [h0] at this
    linarith [h.1, hge]
  · intro h
    simp only [FormattedDistance.mk.injEq] at h
    have hge : (1:ℚ) ≤ roundTo 3 (q * 1000) := by
      have := roundTo_mono 3 (show (1:ℚ) ≤ q * 1000 by linarith)
      rwa [roundTo_one] at this
    linarith [h.1, hge]
  · simp

end UnitFormatter

open UnitFormatter in
/-- C10: `formatDistanceWithDynamicUnits(0, "meters")` is `{value: 0,
unit: "km"}` — an exactly-zero distance matches none of the mm/cm/m
brackets and falls through to kilometers — while the sentinel
`{value: 0, unit: "m"}` (zero with the system default unit) is produced
exactly for NaN, infinite, or strictly negative input. -/
theorem C10_format_zero_km :
    formatDistanceWithDynamicUnits (JsNum.fin 0) "meters" =
      { value := 0, unit := "km" } ∧
    (∀ x : JsNum, formatDistanceWithDynamicUnits x "meters" =
        { value := 0, unit := "m" } ↔
      (x = JsNum.nan ∨ x = JsNum.posInf ∨ x = JsNum.negInf ∨
       ∃ q : ℚ, x = JsNum.fin q ∧ q < 0)) := by
  constructor
  · simp only [formatDistanceWithDynamicUnits]
    rw [if_neg (by norm_num), if_neg (by decide), if_neg (by decide)]
    unfold formatInMeters
    dsimp only
    rw [if_neg (by norm_num), if_neg (by norm_num), if_neg (by norm_num),
      if_neg (by norm_num)]
    unfold roundTo
    norm_num
  · intro x
    cases x with
    | nan => simp [formatDistanceWithDynamicUnits, getDefaultUnit]
    | posInf => simp [formatDistanceWithDynamicUnits, getDefaultUnit]
    | negInf => simp [formatDistanceWithDynamicUnits, getDefaultUnit]
    | fin q =>
      simp only [formatDistanceWithDynamicUnits]
      rcases lt_or_le q 0 with hq | hq
      · rw [if_pos hq]
        simp only [getDefaultUnit]
        rw [if_neg (by decide)]
        simp only [eq_self_iff_true, true_iff]
        exact Or.inr (Or.inr (Or.inr ⟨q, rfl, hq⟩))
      · rw [if_neg (not_lt.mpr hq), if_neg (by decide), if_neg (by decide)]
        constructor
        · intro h
          exact absurd h (formatInMeters_ne_zero_m q)
        · rintro (h | h | h | ⟨a, ha, hneg⟩)
          · exact absurd h (by simp)
          · exact absurd h (by simp)
          · exact absurd h (by simp)
          · cases ha
            linarith

open UnitFormatter in
/-- C4 counterexample: `formatDistanceWithDynamicUnits(0.0005, "meters")`
is `{value: 50, unit: "cm"}` — 0.0005 km is 500 mm, which falls in the
centimeter bracket `mm ∈ [10, 1000)` — not the claimed
`{value: 0.5, unit: "mm"}`. -/
theorem C4_counterexample_half_millimeter :
    formatDistanceWithDynamicUnits (JsNum.fin (5/10000)) "meters" =
      { value := 50, unit := "cm" } ∧
    ({ value := 50, unit := "cm" } : FormattedDistance) ≠
      { value := 1/2, unit := "mm" } := by
  constructor
  · simp only [formatDistanceWithDynamicUnits]
    rw [if_neg (by norm_num), if_neg (by decide), if_neg (by decide)]
    unfold formatInMeters
    dsimp only
    rw [if_neg (by norm_num), if_pos (by norm_num)]
    unfold roundTo
    norm_num
  · simp

open UnitFormatter in
/-- C4 (amended): the `meters` branch of the dynamic-unit formatter selects
millimeters for `mm ∈ [0.1, 10)`, centimeters for `mm ∈ [10, 1000)`,
meters for `cm ∈ [100, 10000)` or for the plain-meters fall-through (which
is reachable exactly for 100–1000 m), and kilometers otherwise; and
`formatDistanceWithDynamicUnits(0.0005, "meters") = {value: 50,
unit: "cm"}` (not `{0.5, "mm"}`). -/
theorem C4_formatInMeters_unit_brackets (q : ℚ) (hq : 0 ≤ q) :
    formatDistanceWithDynamicUnits (JsNum.fin q) "meters" = formatInMeters q ∧
    formatDistanceWithDynamicUnits (JsNum.fin (5/10000)) "meters" =
      { value := 50, unit := "cm" } ∧    ((formatInMeters q).unit = "mm" ↔
      1/10 ≤ q * 1000 * 100 * 10 ∧ q * 1000 * 100 * 10 < 10) ∧
    ((formatInMeters q).unit = "cm" ↔
      10 ≤ q * 1000 * 100 * 10 ∧ q * 1000 * 100 * 10 < 1000) ∧
    ((formatInMeters q).unit = "m" ↔
      (100 ≤ q * 1000 * 100 ∧ q * 1000 * 100 < 10000) ∨
      (100 ≤ q * 1000 ∧ q * 1000 < 1000)) ∧
    ((formatInMeters q).unit = "km" ↔
      q * 1000 * 100 * 10 < 1/10 ∨ 1000 ≤ q * 1000) := by
  refine ⟨?_, ?_⟩
  · simp only [formatDistanceWithDynamicUnits]
    rw [if_neg (not_lt.mpr hq), if_neg (by decide), if_neg (by decide)]
  refine ⟨?_, ?_⟩
  · simp only [formatDistanceWithDynamicUnits]
    rw [if_neg (by norm_num), if_neg (by decide), if_neg (by decide)]
    unfold formatInMeters
    dsimp only
    rw [if_neg (by norm_num), if_pos (by norm_num)]
    unfold roundTo
    norm_num
  unfold formatInMeters
  dsimp only
  split_ifs with h1 h2 h3 h4 h5
  · refine ⟨⟨fun _ => h1, fun _ => rfl⟩, ?_, ?_, ?_⟩
    · constructor
      · intro h; simp at h
      · intro hB; exfalso; linarith [h1.2, hB.1]
    · constructor
      · intro h; simp at h
      · intro hB; exfalso
        rcases hB with hB | hB
        · linarith [h1.1]
        · linarith [h1.2]
    · constructor
      · intro h; simp at h
      · intro hB; exfalso
        rcases hB with hB | hB
        · linarith [h1.1]
        · linarith [h1.2]
  · refine ⟨?_, ⟨fun _ => h2, fun _ => rfl⟩, ?_, ?_⟩
    · constructor
      · intro h; simp at h
      · intro hB; exfalso; linarith [h2.1, hB.2]
    · constructor
      · intro h; simp at h
      · intro hB; exfalso
        rcases hB with hB | hB
        · linarith [h2.2, hB.1]
        · linarith [h2.2, hB.1]
    · constructor
      · intro h; simp at h
      · intro hB; exfalso
        rcases hB with hB | hB
        · linarith [h2.1]
        · linarith [h2.2]
  · refine ⟨?_, ?_, ⟨fun _ => Or.inl h3, fun _ => rfl⟩, ?_⟩
    · constructor
      · intro h; simp at h
      · intro hB; exfalso; linarith [h3.1, hB.2]
    · constructor
      · intro h; simp at h
      · intro hB; exfalso; linarith [h3.1, hB.2]
    · constructor
      · intro h; simp at h
      · intro hB; exfalso
        rcases hB with hB | hB
        · linarith [h3.1]
        · linarith [h3.2]
  · exfalso
    have hmm1 : (1:ℚ) ≤ q * 1000 * 100 * 10 := by linarith [h4.1]
    have hmm2 : q * 1000 * 100 * 10 < 1000 := by linarith [h5]
    rcases not_and_or.mp h1 with ha | ha
    · exact ha (by linarith)
    · rcases not_and_or.mp h2 with hb | hb
      · exact hb (by linarith [not_lt.mp ha])
      · exact hb (by linarith)
  · have hm100 : (100:ℚ) ≤ q * 1000 := by
      rcases not_and_or.mp h3 with hc | hc
      · exfalso
        exact hc (by linarith [not_lt.mp h5])
      · linarith [not_lt.mp hc]
    refine ⟨?_, ?_, ⟨fun _ => Or.inr ⟨hm100, h4.2⟩, fun _ => rfl⟩, ?_⟩
    · constructor
      · intro h; simp at h
      · intro hB; exfalso; linarith [hB.2, hm100]
    · constructor
      · intro h; simp at h
      · intro hB; exfalso; linarith [hB.2, hm100]
    · constructor
      · intro h; simp at h
      · intro hB; exfalso
        rcases hB with hB | hB
        · linarith [hm100]
        · linarith [h4.2]
  · refine ⟨?_, ?_, ?_, ⟨fun _ => ?_, fun _ => rfl⟩⟩
    · constructor
      · intro h; simp at h
      · intro hB; exact absurd hB h1
    · constructor
      · intro h; simp at h
      · intro hB; exact absurd hB h2
    · constructor
      · intro h; simp at h
      · intro hB
        rcases hB with hB | hB
        · exact absurd hB h3
        · exact absurd (⟨by linarith [hB.1], by linarith [hB.2]⟩ :
            1/1000 ≤ q * 1000 ∧ q * 1000 < 1000) h4
    · rcases not_and_or.mp h4 with hd | hd
      · left
        have hme : q * 1000 < 1/1000 := not_le.mp hd
        rcases not_and_or.mp h1 with ha | ha
        · linarith [not_le.mp ha]
        · linarith [not_lt.mp ha]
      · right
        linarith [not_lt.mp hd]

/-- Witness for C4 at `q = 0.0005` (the corrected spec example). -/
theorem C4_unit_brackets_witness :
    (0 ≤ (5/10000 : ℚ)) ∧
    ((UnitFormatter.formatInMeters (5/10000)).unit = "cm" ↔
      10 ≤ (5/10000 : ℚ) * 1000 * 100 * 10 ∧
      (5/10000 : ℚ) * 1000 * 100 * 10 < 1000) :=
  ⟨by norm_num, (C4_formatInMeters_unit_brackets (5/10000) (by norm_num)).2.2.2.1⟩

namespace DistanceCalculator

/-- Under the range predicate the Haversine path always produces a result
whose `km`/`miles` are 6-decimal roundings of radius times central angle. -/
theorem calc2D_some (M : JsMath) (la1 lo1 la2 lo2 : ℚ)
    (h1 : validateCoordinates la1 lo1 = true)
    (h2 : validateCoordinates la2 lo2 = true) :
    ∃ c : ℚ, calculate2DDistance M la1 lo1 la2 lo2 =
      some { km := roundTo 6 (earthRadiusKm * c)
           , miles := roundTo 6 (earthRadiusMiles * c) } := by
  unfold calculate2DDistance
  rw [h1, h2]
  simp only [Bool.not_true, Bool.or_self, Bool.false_eq_true, if_false]
  exact ⟨_, rfl⟩

theorem calc2D_none (M : JsMath) (la1 lo1 la2 lo2 : ℚ)
    (h : validateCoordinates la1 lo1 = false ∨ validateCoordinates la2 lo2 = false) :
    calculate2DDistance M la1 lo1 la2 lo2 = none := by
  unfold calculate2DDistance
  rcases h with h | h <;> rw [h] <;> simp

end DistanceCalculator

open DistanceCalculator in
/-- C6: for range-valid points, `calculate3DDistance` with finite
elevations returns `km = round₆(√((d2D.km·1000)² + (elev1 − elev2)²)/1000)`
(the absolute elevation delta squared equals the plain difference squared),
built from the already-rounded 2D result `d2D`; with a non-finite elevation
on either side it returns exactly the 2D result; and when either point
fails the range predicate it returns `null`. -/
theorem C6_calculate3DDistance_pythagorean (M : JsMath) (la1 lo1 la2 lo2 : ℚ)
    (h1 : validateCoordinates la1 lo1 = true)
    (h2 : validateCoordinates la2 lo2 = true) :
    (∃ d2, calculate2DDistance M la1 lo1 la2 lo2 = some d2 ∧
      (∀ q1 q2 : ℚ,
        calculate3DDistance M la1 lo1 (JsNum.fin q1) la2 lo2 (JsNum.fin q2) =
          some { km := roundTo 6 (M.sqrt ((d2.km * 1000) ^ 2 + (q1 - q2) ^ 2) / 1000)
               , miles := roundTo 6
                   (M.sqrt ((d2.km * 1000) ^ 2 + (q1 - q2) ^ 2) / 1000 * 0.621371) }) ∧
      (∀ e1 e2 : JsNum, (e1.isFiniteNum = false ∨ e2.isFiniteNum = false) →
        calculate3DDistance M la1 lo1 e1 la2 lo2 e2 = some d2)) ∧
    (∀ (la1' lo1' la2' lo2' : ℚ) (e1 e2 : JsNum),
      (validateCoordinates la1' lo1' = false ∨ validateCoordinates la2' lo2' = false) →
      calculate3DDistance M la1' lo1' e1 la2' lo2' e2 = none) := by
  constructor
  · obtain ⟨c, hc⟩ := calc2D_some M la1 lo1 la2 lo2 h1 h2
    refine ⟨_, hc, ?_, ?_⟩
    · intro q1 q2
      unfold calculate3DDistance
      rw [hc]
      dsimp only
      rw [show |q1 - q2| ^ 2 = (q1 - q2) ^ 2 from sq_abs _]
    · intro e1 e2 he
      unfold calculate3DDistance
      rw [hc]
      cases e1 with
      | fin a =>
        cases e2 with
        | fin b =>
          exfalso
          rcases he with he | he <;> simp [JsNum.isFiniteNum] at he
        | nan => rfl
        | posInf => rfl
        | negInf => rfl
      | nan => rfl
      | posInf => rfl
      | negInf => rfl
  · intro la1' lo1' la2' lo2' e1 e2 h
    unfold calculate3DDistance
    rw [calc2D_none M _ _ _ _ h]

/-- Witness for C6 at the origin pair with zero elevations, under the
concrete `MW` instantiation of the `Math` functions. -/
theorem C6_calculate3DDistance_witness :
    DistanceCalculator.validateCoordinates 0 0 = true ∧
    (∃ d2, DistanceCalculator.calculate2DDistance MW 0 0 0 0 = some d2 ∧
      (∀ q1 q2 : ℚ,
        DistanceCalculator.calculate3DDistance MW 0 0 (JsNum.fin q1) 0 0 (JsNum.fin q2) =
          some { km := roundTo 6 (MW.sqrt ((d2.km * 1000) ^ 2 + (q1 - q2) ^ 2) / 1000)
               , miles := roundTo 6
                   (MW.sqrt ((d2.km * 1000) ^ 2 + (q1 - q2) ^ 2) / 1000 * 0.621371) }) ∧
      (∀ e1 e2 : JsNum, (e1.isFiniteNum = false ∨ e2.isFiniteNum = false) →
        DistanceCalculator.calculate3DDistance MW 0 0 e1 0 0 e2 = some d2)) :=
  ⟨by decide, (C6_calculate3DDistance_pythagorean MW 0 0 0 0 (by decide) (by decide)).1⟩

open DistanceCalculator in
/-- C9: for range-valid points and finite elevations, the 3D km distance
is at least the 2D km distance: the 3D result is
`round₆(√((d2D.km·1000)² + Δ²)/1000)` built from the already-rounded 2D
km, `√` applied to a larger argument dominates `d2D.km·1000` (assuming a
monotone square root with `x ≤ √(x²)`), and 6-decimal rounding is monotone
and fixes the already-rounded `d2D.km`. -/
theorem C9_calculate3DDistance_ge_2D (M : JsMath)
    (hmono : ∀ x y : ℚ, x ≤ y → M.sqrt x ≤ M.sqrt y)
    (hsq : ∀ x : ℚ, x ≤ M.sqrt (x ^ 2))
    (la1 lo1 la2 lo2 q1 q2 : ℚ)
    (h1 : validateCoordinates la1 lo1 = true)
    (h2 : validateCoordinates la2 lo2 = true)
    (d2 d3 : DistanceValue)
    (e2 : calculate2DDistance M la1 lo1 la2 lo2 = some d2)
    (e3 : calculate3DDistance M la1 lo1 (JsNum.fin q1) la2 lo2 (JsNum.fin q2) = some d3) :
    d2.km ≤ d3.km := by
  obtain ⟨c, hc⟩ := calc2D_some M la1 lo1 la2 lo2 h1 h2
  have hkm : d2.km = roundTo 6 (earthRadiusKm * c) := by
    rw [hc] at e2
    injection e2 with e2'
    rw [← e2']
  rw [e2] at hc
  unfold calculate3DDistance at e3
  rw [e2] at e3
  dsimp only at e3
  injection e3 with e3'
  have hd3km : d3.km =
      roundTo 6 (M.sqrt ((d2.km * 1000) ^ 2 + |q1 - q2| ^ 2) / 1000) := by
    rw [← e3']
  have hargs : (d2.km * 1000) ^ 2 ≤ (d2.km * 1000) ^ 2 + |q1 - q2| ^ 2 := by
    nlinarith [sq_nonneg (|q1 - q2|)]
  have hle : d2.km * 1000 ≤ M.sqrt ((d2.km * 1000) ^ 2 + |q1 - q2| ^ 2) :=
    le_trans (hsq (d2.km * 1000)) (hmono _ _ hargs)
  have hdiv : d2.km ≤ M.sqrt ((d2.km * 1000) ^ 2 + |q1 - q2| ^ 2) / 1000 := by
    linarith
  have hidem : roundTo 6 d2.km = d2.km := by
    rw [hkm, roundTo_roundTo]
  have hfin := roundTo_mono 6 hdiv
  rw [hidem] at hfin
  rw [hd3km]
  exact hfin

/-- Witness for C9 under `MW` at the origin pair with zero elevations:
the 2D distance is `{km: 0, miles: 0}` and the 3D distance is
`{km: 0.001, miles: 0.000621}` (since `MW.sqrt 0 = 1`), and indeed
`0 ≤ 0.001`. -/
theorem C9_calculate3DDistance_ge_2D_witness :
    (∀ x y : ℚ, x ≤ y → MW.sqrt x ≤ MW.sqrt y) ∧
    (∀ x : ℚ, x ≤ MW.sqrt (x ^ 2)) ∧
    DistanceCalculator.validateCoordinates 0 0 = true ∧
    DistanceCalculator.calculate2DDistance MW 0 0 0 0 =
      some { km := 0, miles := 0 } ∧
    DistanceCalculator.calculate3DDistance MW 0 0 (JsNum.fin 0) 0 0 (JsNum.fin 0) =
      some { km := 1/1000, miles := 621/1000000 } ∧
    (DistanceCalculator.DistanceValue.mk 0 0).km ≤
      (DistanceCalculator.DistanceValue.mk (1/1000) (621/1000000)).km := by
  have e2 : DistanceCalculator.calculate2DDistance MW 0 0 0 0 =
      some { km := 0, miles := 0 } := by
    unfold DistanceCalculator.calculate2DDistance
    rw [if_neg (by decide)]
    dsimp only [MW, DistanceCalculator.toRadians]
    norm_num [roundTo]
  have e3 : DistanceCalculator.calculate3DDistance MW 0 0 (JsNum.fin 0) 0 0 (JsNum.fin 0) =
      some { km := 1/1000, miles := 621/1000000 } := by
    unfold DistanceCalculator.calculate3DDistance
    rw [e2]
    dsimp only [MW]
    norm_num [roundTo, round_eq]
  exact ⟨MW_sqrt_mono, MW_le_sqrt_sq, by decide, e2, e3,
    C9_calculate3DDistance_ge_2D MW MW_sqrt_mono MW_le_sqrt_sq 0 0 0 0 0 0
      (by decide) (by decide) _ _ e2 e3⟩

namespace DistanceCalculator

/-- The Haversine distance is symmetric in its two points whenever `sin` is
odd: swapping the points negates both angle differences, whose squared
sines are unchanged, and the cosine product commutes. -/

theorem calc2D_symm (M : JsMath) (hsin : ∀ x : ℚ, M.sin (-x) = -M.sin x)
    (la1 lo1 la2 lo2 : ℚ) :
    calculate2DDistance M la2 lo2 la1 lo1 = calculate2DDistance M la1 lo1 la2 lo2 := by
  have hA : M.sin ((toRadians M la1 - toRadians M la2) / 2) *
        M.sin ((toRadians M la1 - toRadians M la2) / 2) +
      M.cos (toRadians M la2) * M.cos (toRadians M la1) *
        M.sin ((toRadians M lo1 - toRadians M lo2) / 2) *
        M.sin ((toRadians M lo1 - toRadians M lo2) / 2) =
      M.sin ((toRadians M la2 - toRadians M la1) / 2) *
        M.sin ((toRadians M la2 - toRadians M la1) / 2) +
      M.cos (toRadians M la1) * M.cos (toRadians M la2) *
        M.sin ((toRadians M lo2 - toRadians M lo1) / 2) *
        M.sin ((toRadians M lo2 - toRadians M lo1) / 2) := by
    rw [show (toRadians M la1 - toRadians M la2) / 2 =
        -((toRadians M la2 - toRadians M la1) / 2) by ring,
      show (toRadians M lo1 - toRadians M lo2) / 2 =
        -((toRadians M lo2 - toRadians M lo1) / 2) by ring,
      hsin, hsin]
    ring
  unfold calculate2DDistance
  refine if_congr ?_ rfl ?_
  · rw [Bool.or_comm]
  · dsimp only
    rw [hA]

end DistanceCalculator

theorem getD_map_range {α : Type _} (n i : ℕ) (f : ℕ → α) (d : α) (h : i < n) :
    ((List.range n).map f).getD i d = f i := by
  rw [List.getD_eq_getElem?_getD, List.getElem?_map, List.getElem?_range h]
  rfl

theorem getD_mem {α : Type _} (l : List α) (i : ℕ) (d : α) (h : i < l.length) :
    l.getD i d ∈ l := by
  rw [List.getD_eq_getElem?_getD, List.getElem?_eq_getElem h]
  exact List.getElem_mem h

open DistanceCalculator in
/-- C7: for `n ≥ 2` range-valid coordinates, the 2D matrix of
`calculateDistanceMatrix` is an `n × n` square array, every diagonal cell
is the zero distance `{km: 0, miles: 0}`, and the matrix is symmetric in
both `km` and `miles` (assuming `Math.sin` is odd, as the real sine is). -/
theorem C7_matrix2D_square_zero_diagonal_symmetric (M : JsMath)
    (hsin : ∀ x : ℚ, M.sin (-x) = -M.sin x)
    (coords : List Coordinate) (hn : 2 ≤ coords.length)
    (hv : ∀ c ∈ coords, validateCoordinates c.lat c.lon = true) :
    ∃ res mat, calculateDistanceMatrix M coords true true = some res ∧
      res.matrix2D = some mat ∧
      mat.length = coords.length ∧
      (∀ row ∈ mat, row.length = coords.length) ∧
      (∀ i, i < coords.length →
        (mat.getD i []).getD i none = some { km := 0, miles := 0 }) ∧
      (∀ i j, i < coords.length → j < coords.length →
        ∃ dij dji, (mat.getD i []).getD j none = some dij ∧
          (mat.getD j []).getD i none = some dji ∧
          dij.km = dji.km ∧ dij.miles = dji.miles) := by
  have hno : ¬(coords.length < 2) := not_lt.mpr hn
  have hmatrix : calculateDistanceMatrix M coords true true ≠ none := by
    unfold calculateDistanceMatrix
    rw [if_neg hno]
    exact Option.some_ne_none _
  have hres : calculateDistanceMatrix M coords true true =
      some { matrix2D := some ((List.range coords.length).map (fun i =>
                 (List.range coords.length).map (fun j => matrixCell2D M coords i j))),
             matrix3D := some ((List.range coords.length).map (fun i =>
                 (List.range coords.length).map (fun j => matrixCell3D M coords i j))),
             statistics2D := calculateStatistics
                 (distancesList (matrixCell2D M coords) coords.length),
             statistics3D := calculateStatistics
                 (distancesList (matrixCell3D M coords) coords.length),
             cumulative2D := calculateCumulativeDistance M coords false,
             cumulative3D := calculateCumulativeDistance M coords true,
             coordinates := coords.enum.map
                 (fun p => (p.2, "Point " ++ toString (p.1 + 1))) } := by
    unfold calculateDistanceMatrix
    rw [if_neg hno]
    rfl
  refine ⟨_, (List.range coords.length).map (fun i =>
      (List.range coords.length).map (fun j => matrixCell2D M coords i j)),
    hres, rfl, ?_, ?_, ?_, ?_⟩
  · simp
  · intro row hrow
    rw [List.mem_map] at hrow
    obtain ⟨i, _, hrow⟩ := hrow
    rw [← hrow]
    simp
  · intro i hi
    rw [getD_map_range _ _ _ _ hi, getD_map_range _ _ _ _ hi]
    unfold matrixCell2D
    rw [if_pos rfl]
  · intro i j hi hj
    rw [getD_map_range _ _ _ _ hi, getD_map_range _ _ _ _ hj,
      getD_map_range _ _ _ _ hj, getD_map_range _ _ _ _ hi]
    by_cases hij : i = j
    · subst hij
      refine ⟨{ km := 0, miles := 0 }, { km := 0, miles := 0 }, ?_, ?_, rfl, rfl⟩ <;>
        · unfold matrixCell2D
          rw [if_pos rfl]
    · have hvi := hv _ (getD_mem coords i default hi)
      have hvj := hv _ (getD_mem coords j default hj)
      obtain ⟨c, hc⟩ := calc2D_some M (coords.getD i default).lat
        (coords.getD i default).lon (coords.getD j default).lat
        (coords.getD j default).lon hvi hvj
      refine ⟨{ km := roundTo 6 (earthRadiusKm * c)
              , miles := roundTo 6 (earthRadiusMiles * c) },
        { km := roundTo 6 (earthRadiusKm * c)
        , miles := roundTo 6 (earthRadiusMiles * c) }, ?_, ?_, rfl, rfl⟩
      · unfold matrixCell2D
        rw [if_neg hij]
        exact hc
      · unfold matrixCell2D
        rw [if_neg (Ne.symm hij)]
        dsimp only
        rw [calc2D_symm M hsin]
        exact hc

open DistanceCalculator in
/-- Witness for C7 under `MW` on the two valid coordinates `(0,0)` and
`(1,1)`. -/
theorem C7_matrix2D_witness :
    2 ≤ ([⟨0, 0, none⟩, ⟨1, 1, none⟩] : List Coordinate).length ∧
    (∀ c ∈ ([⟨0, 0, none⟩, ⟨1, 1, none⟩] : List Coordinate),
      validateCoordinates c.lat c.lon = true) ∧
    (∀ x : ℚ, MW.sin (-x) = -MW.sin x) ∧
    ∃ res mat,
      calculateDistanceMatrix MW [⟨0, 0, none⟩, ⟨1, 1, none⟩] true true = some res ∧
      res.matrix2D = some mat ∧
      mat.length = ([⟨0, 0, none⟩, ⟨1, 1, none⟩] : List Coordinate).length ∧
      (∀ row ∈ mat, row.length = ([⟨0, 0, none⟩, ⟨1, 1, none⟩] : List Coordinate).length) ∧
      (∀ i, i < ([⟨0, 0, none⟩, ⟨1, 1, none⟩] : List Coordinate).length →
        (mat.getD i []).getD i none = some { km := 0, miles := 0 }) ∧
      (∀ i j, i < ([⟨0, 0, none⟩, ⟨1, 1, none⟩] : List Coordinate).length →
        j < ([⟨0, 0, none⟩, ⟨1, 1, none⟩] : List Coordinate).length →
        ∃ dij dji, (mat.getD i []).getD j none = some dij ∧
          (mat.getD j []).getD i none = some dji ∧
          dij.km = dji.km ∧ dij.miles = dji.miles) := by
  have hv : ∀ c ∈ ([⟨0, 0, none⟩, ⟨1, 1, none⟩] : List Coordinate),
      validateCoordinates c.lat c.lon = true := by
    intro c hc
    simp only [List.mem_cons, List.not_mem_nil, or_false] at hc
    rcases hc with rfl | rfl <;> decide
  exact ⟨by decide, hv, MW_sin_odd,
    C7_matrix2D_square_zero_diagonal_symmetric MW MW_sin_odd _ (by decide) hv⟩

theorem filterMap_length_add_count (f : ℕ → Option ℚ) (i : ℕ) :
    ∀ l : List ℕ, (∀ j ∈ l, (f j = none ↔ j = i)) →
      (l.filterMap f).length + l.count i = l.length := by
  intro l
  induction l with
  | nil => intro _; simp
  | cons a t ih =>
    intro h
    have ha := h a (List.mem_cons_self a t)
    have ht : ∀ j ∈ t, (f j = none ↔ j = i) :=
      fun j hj => h j (List.mem_cons_of_mem a hj)
    have iht := ih ht
    by_cases hai : a = i
    · subst hai
      have hfa : f a = none := ha.mpr rfl
      rw [List.filterMap_cons_none hfa, List.count_cons, List.length_cons]
      simp only [beq_self_eq_true, if_true]
      omega
    · have hfa : f a ≠ none := fun hx => hai (ha.mp hx)
      obtain ⟨b, hb⟩ := Option.ne_none_iff_exists'.mp hfa
      rw [List.filterMap_cons_some hb, List.count_cons, List.length_cons,
        List.length_cons]
      have hbeq : (a == i) = false := beq_eq_false_iff_ne.mpr hai
      simp only [hbeq, Bool.false_eq_true, if_false]
      omega

theorem flatMap_length_const (g : ℕ → List ℚ) (m : ℕ) :
    ∀ l : List ℕ, (∀ x ∈ l, (g x).length = m) →
      (l.flatMap g).length = l.length * m := by
  intro l
  induction l with
  | nil => intro _; simp
  | cons a t ih =>
    intro h
    rw [List.flatMap_cons, List.length_append, h a (List.mem_cons_self a t),
      ih (fun x hx => h x (List.mem_cons_of_mem a hx)), List.length_cons]
    ring

namespace DistanceCalculator

theorem calc3D_some (M : JsMath) (la1 lo1 la2 lo2 : ℚ) (e1 e2 : JsNum)
    (h1 : validateCoordinates la1 lo1 = true)
    (h2 : validateCoordinates la2 lo2 = true) :
    ∃ d, calculate3DDistance M la1 lo1 e1 la2 lo2 e2 = some d := by
  obtain ⟨c, hc⟩ := calc2D_some M la1 lo1 la2 lo2 h1 h2
  unfold calculate3DDistance
  rw [hc]
  cases e1 <;> cases e2 <;> exact ⟨_, rfl⟩

theorem calculateStatistics_count (l : List ℚ) (hl : l ≠ []) :
    ∃ s, calculateStatistics l = some s ∧ s.count = l.length := by
  cases l with
  | nil => exact absurd rfl hl
  | cons a t => exact ⟨_, rfl, rfl⟩

theorem inner_filterMap_length (M : JsMath) (coords : List Coordinate)
    (cell : ℕ → ℕ → Option DistanceValue)
    (hcell : ∀ i j, i < coords.length → j < coords.length → i ≠ j →
      ∃ d, cell i j = some d)
    (i : ℕ) (hi : i < coords.length) :
    ((List.range coords.length).filterMap fun j =>
      if i = j then none else (cell i j).map (·.km)).length =
    coords.length - 1 := by
  have hiff : ∀ j ∈ List.range coords.length,
      ((if i = j then none else (cell i j).map (·.km)) = none ↔ j = i) := by
    intro j hj
    have hj' : j < coords.length := List.mem_range.mp hj
    by_cases hij : i = j
    · subst hij
      rw [if_pos rfl]
      exact ⟨fun _ => rfl, fun _ => rfl⟩
    · rw [if_neg hij]
      obtain ⟨d, hd⟩ := hcell i j hi hj' hij
      rw [hd]
      constructor
      · intro hx
        exact absurd hx (by simp)
      · intro hx
        exact absurd hx.symm hij
  have hlen := filterMap_length_add_count
    (fun j => if i = j then none else (cell i j).map (·.km)) i
    (List.range coords.length) hiff
  have hcount : (List.range coords.length).count i = 1 :=
    List.count_eq_one_of_mem (List.nodup_range _) (List.mem_range.mpr hi)
  rw [hcount, List.length_range] at hlen
  omega

theorem distancesList_length (M : JsMath) (coords : List Coordinate)
    (cell : ℕ → ℕ → Option DistanceValue)
    (hcell : ∀ i j, i < coords.length → j < coords.length → i ≠ j →
      ∃ d, cell i j = some d) :
    (distancesList cell coords.length).length =
      coords.length * (coords.length - 1) := by
  unfold distancesList
  have hmain : ∀ i ∈ List.range coords.length,
      ((List.range coords.length).filterMap fun j =>
        if i = j then none else (cell i j).map (·.km)).length =
      coords.length - 1 := fun i hi =>
    inner_filterMap_length M coords cell hcell i (List.mem_range.mp hi)
  have h := flatMap_length_const _ _ _ hmain
  rw [List.length_range] at h
  exact h

theorem matrixCell2D_some (M : JsMath) (coords : List Coordinate)
    (hv : ∀ c ∈ coords, validateCoordinates c.lat c.lon = true) :
    ∀ i j, i < coords.length → j < coords.length → i ≠ j →
      ∃ d, matrixCell2D M coords i j = some d := by
  intro i j hi hj hij
  unfold matrixCell2D
  rw [if_neg hij]
  obtain ⟨c, hc⟩ := calc2D_some M (coords.getD i default).lat
    (coords.getD i default).lon (coords.getD j default).lat
    (coords.getD j default).lon
    (hv _ (getD_mem coords i default hi))
    (hv _ (getD_mem coords j default hj))
  exact ⟨_, hc⟩

theorem matrixCell3D_some (M : JsMath) (coords : List Coordinate)
    (hv : ∀ c ∈ coords, validateCoordinates c.lat c.lon = true) :
    ∀ i j, i < coords.length → j < coords.length → i ≠ j →
      ∃ d, matrixCell3D M coords i j = some d := by
  intro i j hi hj hij
  unfold matrixCell3D
  rw [if_neg hij]
  exact calc3D_some M _ _ _ _ _ _
    (hv _ (getD_mem coords i default hi))
    (hv _ (getD_mem coords j default hj))

end DistanceCalculator

open DistanceCalculator in
/-- C3 counterexample: for the two valid coordinates `(0,0)` and `(1,1)`
(under the concrete `MW` instantiation), `statistics2D.count` is `2` — both
ordered pairs `(0,1)` and `(1,0)` are pushed — not `n(n-1)/2 = 1` as the
claim asserts. -/
theorem C3_counterexample_count_two_points :
    ((calculateDistanceMatrix MW
        [⟨0, 0, none⟩, ⟨1, 1, none⟩] true true).bind
      (fun r => r.statistics2D)).map (fun s => s.count) = some 2 ∧
    (2 : ℕ) ≠ 2 * (2 - 1) / 2 := by
  constructor
  · have hc01 : calculate2DDistance MW 0 0 1 1 = some { km := 0, miles := 0 } := by
      unfold calculate2DDistance
      rw [if_neg (by decide)]
      dsimp only [MW, toRadians]
      norm_num [roundTo]
    have hc10 : calculate2DDistance MW 1 1 0 0 = some { km := 0, miles := 0 } := by
      unfold calculate2DDistance
      rw [if_neg (by decide)]
      dsimp only [MW, toRadians]
      norm_num [roundTo]
    have hres : calculateDistanceMatrix MW [⟨0, 0, none⟩, ⟨1, 1, none⟩] true true =
        some { matrix2D := some ((List.range 2).map (fun i =>
                   (List.range 2).map (fun j =>
                     matrixCell2D MW [⟨0, 0, none⟩, ⟨1, 1, none⟩] i j))),
               matrix3D := some ((List.range 2).map (fun i =>
                   (List.range 2).map (fun j =>
                     matrixCell3D MW [⟨0, 0, none⟩, ⟨1, 1, none⟩] i j))),
               statistics2D := calculateStatistics
                   (distancesList (matrixCell2D MW [⟨0, 0, none⟩, ⟨1, 1, none⟩]) 2),
               statistics3D := calculateStatistics
                   (distancesList (matrixCell3D MW [⟨0, 0, none⟩, ⟨1, 1, none⟩]) 2),
               cumulative2D :=
                 calculateCumulativeDistance MW [⟨0, 0, none⟩, ⟨1, 1, none⟩] false,
               cumulative3D :=
                 calculateCumulativeDistance MW [⟨0, 0, none⟩, ⟨1, 1, none⟩] true,
               coordinates := [(⟨0, 0, none⟩, "Point 1"), (⟨1, 1, none⟩, "Point 2")] } := by
      unfold calculateDistanceMatrix
      rw [if_neg (by decide)]
      rfl
    rw [hres]
    have hdl : distancesList (matrixCell2D MW [⟨0, 0, none⟩, ⟨1, 1, none⟩]) 2 =
        [0, 0] := by
      unfold distancesList
      rw [show List.range 2 = [0, 1] from rfl]
      unfold matrixCell2D
      simp only [List.flatMap_cons, List.flatMap_nil, List.filterMap_cons,
        List.filterMap_nil, List.getD_cons_zero, List.getD_cons_succ]
      norm_num [hc01, hc10]
    rw [hdl]
    rfl
  · decide

open DistanceCalculator in
/-- C3 (amended): the statistics of `calculateDistanceMatrix` are computed
over the km observations of ALL ordered pairs `(i, j)`, `i ≠ j` — both
triangles of the matrix, each unordered pair counted twice — so for `n ≥ 2`
range-valid coordinates `statistics2D.count = statistics3D.count =
n·(n-1)`; and `calculateStatistics` of an empty observation list is
`null`. -/
theorem C3_statistics_count_all_ordered_pairs (M : JsMath)
    (coords : List Coordinate) (hn : 2 ≤ coords.length)
    (hv : ∀ c ∈ coords, validateCoordinates c.lat c.lon = true) :

    ∃ res s2 s3, calculateDistanceMatrix M coords true true = some res ∧
      res.statistics2D = some s2 ∧ res.statistics3D = some s3 ∧
      s2.count = coords.length * (coords.length - 1) ∧
      s3.count = coords.length * (coords.length - 1) ∧
      calculateStatistics [] = none := by
  have hno : ¬(coords.length < 2) := not_lt.mpr hn
  have hres : calculateDistanceMatrix M coords true true =
      some { matrix2D := some ((List.range coords.length).map (fun i =>
                 (List.range coords.length).map (fun j => matrixCell2D M coords i j))),
             matrix3D := some ((List.range coords.length).map (fun i =>
                 (List.range coords.length).map (fun j => matrixCell3D M coords i j))),
             statistics2D := calculateStatistics
                 (distancesList (matrixCell2D M coords) coords.length),
             statistics3D := calculateStatistics
                 (distancesList (matrixCell3D M coords) coords.length),
             cumulative2D := calculateCumulativeDistance M coords false,
             cumulative3D := calculateCumulativeDistance M coords true,
             coordinates := coords.enum.map
                 (fun p => (p.2, "Point " ++ toString (p.1 + 1))) } := by
    unfold calculateDistanceMatrix
    rw [if_neg hno]
    rfl
  have hl2 := distancesList_length M coords _ (matrixCell2D_some M coords hv)
  have hl3 := distancesList_length M coords _ (matrixCell3D_some M coords hv)
  have hpos : 0 < coords.length * (coords.length - 1) :=
    Nat.mul_pos (by omega) (by omega)
  have hne2 : distancesList (matrixCell2D M coords) coords.length ≠ [] := by
    intro h
    rw [h] at hl2
    exact (Nat.pos_iff_ne_zero.mp hpos) hl2.symm
  have hne3 : distancesList (matrixCell3D M coords) coords.length ≠ [] := by
    intro h
    rw [h] at hl3
    exact (Nat.pos_iff_ne_zero.mp hpos) hl3.symm
  obtain ⟨s2, hs2, hc2⟩ := calculateStatistics_count _ hne2
  obtain ⟨s3, hs3, hc3⟩ := calculateStatistics_count _ hne3
  refine ⟨_, s2, s3, hres, hs2, hs3, ?_, ?_, rfl⟩
  · rw [hc2, hl2]
  · rw [hc3, hl3]

open DistanceCalculator in
/-- Witness for the amended C3 at the `MW` instantiation on two valid
coordinates. -/
theorem C3_statistics_count_witness :
    2 ≤ ([⟨0, 0, none⟩, ⟨1, 1, none⟩] : List Coordinate).length ∧
    (∀ c ∈ ([⟨0, 0, none⟩, ⟨1, 1, none⟩] : List Coordinate),
      validateCoordinates c.lat c.lon = true) ∧
    ∃ res s2 s3,
      calculateDistanceMatrix MW [⟨0, 0, none⟩, ⟨1, 1, none⟩] true true = some res ∧
      res.statistics2D = some s2 ∧ res.statistics3D = some s3 ∧
      s2.count = ([⟨0, 0, none⟩, ⟨1, 1, none⟩] : List Coordinate).length *
        (([⟨0, 0, none⟩, ⟨1, 1, none⟩] : List Coordinate).length - 1) ∧
      s3.count = ([⟨0, 0, none⟩, ⟨1, 1, none⟩] : List Coordinate).length *
        (([⟨0, 0, none⟩, ⟨1, 1, none⟩] : List Coordinate).length - 1) ∧
      calculateStatistics [] = none := by
  have hv : ∀ c ∈ ([⟨0, 0, none⟩, ⟨1, 1, none⟩] : List Coordinate),
      validateCoordinates c.lat c.lon = true := by
    intro c hc
    simp only [List.mem_cons, List.not_mem_nil, or_false] at hc
    rcases hc with rfl | rfl <;> decide
  exact ⟨by decide, hv,
    C3_statistics_count_all_ordered_pairs MW _ (by decide) hv⟩

namespace DistanceCalculator

theorem filterMap_pair_map_proj (step : ℕ → Option DistanceValue)
    (proj : DistanceValue → ℚ) :
    ∀ l : List ℕ, (∀ i ∈ l, (step i).isSome = true) →
      ((l.filterMap fun i => (step i).map (fun d => (i, d))).map
        (fun p => proj p.2)) =
      l.map (fun i => proj ((step i).getD { km := 0, miles := 0 })) := by
  intro l
  induction l with
  | nil => intro _; rfl
  | cons a t ih =>
    intro h
    obtain ⟨d, hd⟩ := Option.isSome_iff_exists.mp (h a (List.mem_cons_self a t))
    rw [List.filterMap_cons, hd]
    simp only [Option.map_some', Option.getD_some, List.map_cons]
    rw [ih (fun i hi => h i (List.mem_cons_of_mem a hi)), hd, Option.getD_some]

end DistanceCalculator

open DistanceCalculator in
/-- C8: for `n ≥ 2` range-valid coordinates, the cumulative 2D distance's
`totalKm` is the 6-decimal rounding of the sum of
`calculate2DDistance(coords[i], coords[i+1]).km` over the consecutive
pairs `i = 0 … n-2` in input order (each pair distance is defined), and
`calculateCumulativeDistance` on fewer than two coordinates is `null`. -/
theorem C8_cumulative_sum_of_consecutive_pairs (M : JsMath)
    (coords : List Coordinate) (hn : 2 ≤ coords.length)
    (hv : ∀ c ∈ coords, validateCoordinates c.lat c.lon = true) :
    (∃ cum, calculateCumulativeDistance M coords false = some cum ∧
      (∀ i, i < coords.length - 1 →
        (calculate2DDistance M (coords.getD i default).lat
          (coords.getD i default).lon (coords.getD (i+1) default).lat
          (coords.getD (i+1) default).lon).isSome = true) ∧
      cum.totalKm = roundTo 6 (((List.range (coords.length - 1)).map (fun i =>
        ((calculate2DDistance M (coords.getD i default).lat
          (coords.getD i default).lon (coords.getD (i+1) default).lat
          (coords.getD (i+1) default).lon).getD { km := 0, miles := 0 }).km)).sum)) ∧
    (∀ l : List Coordinate, l.length < 2 →
      calculateCumulativeDistance M l false = none) := by
  have hno : ¬(coords.length < 2) := not_lt.mpr hn
  have hsome : ∀ i, i < coords.length - 1 →
      (calculate2DDistance M (coords.getD i default).lat
        (coords.getD i default).lon (coords.getD (i+1) default).lat
        (coords.getD (i+1) default).lon).isSome = true := by
    intro i hi
    obtain ⟨c, hc⟩ := calc2D_some M (coords.getD i default).lat
      (coords.getD i default).lon (coords.getD (i+1) default).lat
      (coords.getD (i+1) default).lon
      (hv _ (getD_mem coords i default (by omega)))
      (hv _ (getD_mem coords (i+1) default (by omega)))
    rw [hc]
    rfl
  constructor
  · unfold calculateCumulativeDistance
    rw [if_neg hno]
    dsimp only
    refine ⟨_, rfl, hsome, ?_⟩
    have hmm : ((List.range (coords.length - 1)).filterMap fun i =>
        (calculate2DDistance M (coords.getD i default).lat
          (coords.getD i default).lon (coords.getD (i+1) default).lat
          (coords.getD (i+1) default).lon).map (fun d => (i, d))).map
          (fun p => p.2.km) =
        (List.range (coords.length - 1)).map (fun i =>
          ((calculate2DDistance M (coords.getD i default).lat
            (coords.getD i default).lon (coords.getD (i+1) default).lat
            (coords.getD (i+1) default).lon).getD { km := 0, miles := 0 }).km) :=
      filterMap_pair_map_proj _ _ _ (fun i hi => hsome i (List.mem_range.mp hi))
    simp only [Bool.false_eq_true, if_false]
    rw [hmm, List.sum_eq_foldl]
  · intro l hl
    unfold calculateCumulativeDistance
    rw [if_pos hl]

open DistanceCalculator in
/-- Witness for C8 under `MW` on two valid coordinates. -/
theorem C8_cumulative_witness :
    2 ≤ ([⟨0, 0, none⟩, ⟨1, 1, none⟩] : List Coordinate).length ∧
    (∀ c ∈ ([⟨0, 0, none⟩, ⟨1, 1, none⟩] : List Coordinate),
      validateCoordinates c.lat c.lon = true) ∧
    ((∃ cum, calculateCumulativeDistance MW [⟨0, 0, none⟩, ⟨1, 1, none⟩] false =
        some cum ∧
      (∀ i, i < ([⟨0, 0, none⟩, ⟨1, 1, none⟩] : List Coordinate).length - 1 →
        (calculate2DDistance MW
          (([⟨0, 0, none⟩, ⟨1, 1, none⟩] : List Coordinate).getD i default).lat
          (([⟨0, 0, none⟩, ⟨1, 1, none⟩] : List Coordinate).getD i default).lon
          (([⟨0, 0, none⟩, ⟨1, 1, none⟩] : List Coordinate).getD (i+1) default).lat
          (([⟨0, 0, none⟩, ⟨1, 1, none⟩] : List Coordinate).getD (i+1) default).lon).isSome
          = true) ∧
      cum.totalKm = roundTo 6
        (((List.range (([⟨0, 0, none⟩, ⟨1, 1, none⟩] : List Coordinate).length - 1)).map
          (fun i =>
            ((calculate2DDistance MW
              (([⟨0, 0, none⟩, ⟨1, 1, none⟩] : List Coordinate).getD i default).lat
              (([⟨0, 0, none⟩, ⟨1, 1, none⟩] : List Coordinate).getD i default).lon
              (([⟨0, 0, none⟩, ⟨1, 1, none⟩] : List Coordinate).getD (i+1) default).lat
              (([⟨0, 0, none⟩, ⟨1, 1, none⟩] : List Coordinate).getD (i+1) default).lon).getD
                { km := 0, miles := 0 }).km)).sum)) ∧
    (∀ l : List Coordinate, l.length < 2 →
      calculateCumulativeDistance MW l false = none)) := by
  have hv : ∀ c ∈ ([⟨0, 0, none⟩, ⟨1, 1, none⟩] : List Coordinate),
      validateCoordinates c.lat c.lon = true := by
    intro c hc
    simp only [List.mem_cons, List.not_mem_nil, or_false] at hc
    rcases hc with rfl | rfl <;> decide
  exact ⟨by decide, hv,
    C8_cumulative_sum_of_consecutive_pairs MW _ (by decide) hv⟩
